import Mathlib

/-!
Verification development for the CoreStackHRMS Flask application.

The definitions below are a shallow embedding of the parts of the
repository that the properties under study depend on: the relational
rows (`models.py`), the response helpers (`utils/responses.py`), the
role decorators (`utils/decorators.py`), the pagination helper
(`utils/pagination.py`), and the attendance, leave and auth route
handlers (`routes/attendance.py`, `routes/leave.py`, `routes/auth.py`).

Conventions of the embedding:
* calendar dates and timestamps are natural numbers (ordinal days /
  ticks); `weekday d = d % 7` with the epoch placed on a Monday, so
  `d % 7 < 5` means "weekday" as in Python's `date.weekday() < 5`;
* marshmallow `schema.load` outcomes are passed to a handler as an
  `Except` value: `.error errs` is a `ValidationError` carrying the
  per-field message dictionary, `.ok data` is the validated payload;
* SQLAlchemy queries over a table become `List.find?` / `List.filter`
  over the corresponding list of rows; mutating the object returned by
  `.first()` followed by `commit` becomes `updateFirst`, and
  `session.delete` becomes `removeFirst`;
* a Python statement that raises an uncaught exception (attribute
  access on `None`, `KeyError` on a missing dict key) is modelled by
  the handler returning `Except.error ()`: the framework turns it into
  a 500 outside the handler;
* werkzeug's `check_password_hash` is modelled as: a stored credential
  verifies exactly the password it was generated from.
-/

namespace HRMS

/-- `Role` enum from `models.py`. -/
inductive Role where
  | admin | hr | manager | employee | client
deriving DecidableEq, Repr

/-- `LeaveStatus` enum from `models.py`. -/
inductive LeaveStatus where
  | pending | approved | rejected | cancelled
deriving DecidableEq, Repr

/-- `LeaveType` enum from `models.py`. -/
inductive LeaveType where
  | annual | sick | personal | maternity | paternity | bereavement | unpaid | other
deriving DecidableEq, Repr

/-- `.value` of a `LeaveStatus` member, as used in f-strings in `routes/leave.py`. -/
def leaveStatusValue : LeaveStatus → String
  | .pending => "pending"
  | .approved => "approved"
  | .rejected => "rejected"
  | .cancelled => "cancelled"

/-- Error payload of `utils/responses.py::error_response`: either a plain
message string or the per-field message dictionary raised by marshmallow. -/
inductive ErrorPayload where
  | msg (m : String)
  | fieldErrors (errs : List (String × String))
deriving DecidableEq, Repr

/-- JSON body + status of a handler return value.  `success_response`
produces `success = true` with no error payload; `error_response`
produces `success = false` with the payload (`utils/responses.py`). -/
structure Response where
  success : Bool
  error : Option ErrorPayload
  status : Nat
deriving DecidableEq, Repr

/-- `utils/responses.py::error_response`. -/
def error_response (m : ErrorPayload) (status : Nat) : Response :=
  { success := false, error := some m, status := status }

/-- `utils/responses.py::success_response` (the data payload is not
tracked; the claims under study only inspect status, success flag and
error payload). -/
def success_response (status : Nat) : Response :=
  { success := true, error := none, status := status }

/-- Row of the `users` table (`models.py::User`). -/
structure UserRec where
  id : Nat
  email : String
  passwordHash : String
  role : Role
  isActive : Bool
  lastLogin : Option Nat
deriving DecidableEq, Repr

/-- Row of the `employees` table (`models.py::Employee`); only the
columns the studied handlers read. -/
structure EmployeeRec where
  id : Nat
  userId : Nat
  managerId : Option Nat
deriving DecidableEq, Repr

/-- Row of the `attendance` table (`models.py::Attendance`). -/
structure AttendanceRec where
  id : Nat
  employeeId : Nat
  date : Nat
  clockIn : Option Nat
  clockOut : Option Nat
  status : String
  workFrom : String
  notes : Option String
deriving DecidableEq, Repr

/-- Row of the `leave_requests` table (`models.py::LeaveRequest`). -/
structure LeaveRequestRec where
  id : Nat
  employeeId : Nat
  leaveType : LeaveType
  startDate : Nat
  endDate : Nat
  days : Rat
  reason : Option String
  status : LeaveStatus
  reviewedBy : Option Nat
  reviewedAt : Option Nat
  reviewNote : Option String
deriving DecidableEq, Repr

/-- Database state: the tables the attendance/leave/auth handlers touch,
plus autoincrement counters for primary keys. -/
structure DB where
  users : List UserRec
  employees : List EmployeeRec
  attendance : List AttendanceRec
  leaves : List LeaveRequestRec
  nextAttendanceId : Nat
  nextLeaveId : Nat
deriving DecidableEq, Repr

/-- Mutate (in place) the first element satisfying `p`: the model of
fetching a row with `.first()` / `.get()`, assigning to its attributes
and committing. -/
def updateFirst (p : α → Bool) (f : α → α) : List α → List α
  | [] => []
  | a :: rest => if p a then f a :: rest else a :: updateFirst p f rest

/-- Delete the first element satisfying `p`: the model of
`db.session.delete` on a row fetched with `.get()`. -/
def removeFirst (p : α → Bool) : List α → List α
  | [] => []
  | a :: rest => if p a then rest else a :: removeFirst p rest

/-- `User.query.get(uid)`. -/
def getUser (db : DB) (uid : Nat) : Option UserRec :=
  db.users.find? (fun u => u.id == uid)

/-- `User.query.filter_by(email=email).first()`. -/
def getUserByEmail (db : DB) (email : String) : Option UserRec :=
  db.users.find? (fun u => u.email == email)

/-- `Employee.query.get(eid)`. -/
def getEmployee (db : DB) (eid : Nat) : Option EmployeeRec :=
  db.employees.find? (fun e => e.id == eid)

/-- `Employee.query.filter_by(user_id=uid).first()`. -/
def findEmployeeByUser (db : DB) (uid : Nat) : Option EmployeeRec :=
  db.employees.find? (fun e => e.userId == uid)

/-- `Attendance.query.filter_by(employee_id=eid, date=d).first()`. -/
def findAttendance (db : DB) (eid d : Nat) : Option AttendanceRec :=
  db.attendance.find? (fun a => a.employeeId == eid && a.date == d)

/-- `Attendance.query.get(aid)`. -/
def getAttendance (db : DB) (aid : Nat) : Option AttendanceRec :=
  db.attendance.find? (fun a => a.id == aid)

/-- `LeaveRequest.query.get(lid)`. -/
def getLeave (db : DB) (lid : Nat) : Option LeaveRequestRec :=
  db.leaves.find? (fun l => l.id == lid)

/-- Validated payload of `schemas/auth.py::LoginSchema`. -/
structure LoginData where
  email : String
  password : String
deriving DecidableEq, Repr

/-- Validated payload of `schemas/attendance.py::AttendanceCreateSchema`
(`clock_in`, `clock_out`, `work_from`, `notes` are non-required fields,
absent when the key was not in the request). -/
structure AttendanceCreateData where
  employee_id : Nat
  date : Nat
  clock_in : Option Nat
  clock_out : Option Nat
  status : String
  work_from : Option String
  notes : Option String
deriving DecidableEq, Repr

/-- Validated payload of `schemas/attendance.py::AttendanceUpdateSchema`:
every field is optional and `some v` means the key was present. -/
structure AttendanceUpdateData where
  clock_in : Option Nat
  clock_out : Option Nat
  status : Option String
  work_from : Option String
  notes : Option String
deriving DecidableEq, Repr

/-- Validated payload of `schemas/leave.py::LeaveRequestCreateSchema`
(`days` is a non-required `Float` field, so it may be absent). -/
structure LeaveCreateData where
  leave_type : LeaveType
  start_date : Nat
  end_date : Nat
  days : Option Rat
  reason : Option String
deriving DecidableEq, Repr

/-- Validated payload of `schemas/leave.py::LeaveRequestUpdateSchema`. -/
structure LeaveUpdateData where
  leave_type : Option LeaveType
  start_date : Option Nat
  end_date : Option Nat
  days : Option Rat
  reason : Option String
deriving DecidableEq, Repr

/-- Validated payload of `schemas/leave.py::LeaveRequestActionSchema`. -/
structure LeaveActionData where
  action : String
  note : Option String
deriving DecidableEq, Repr

/-- Per-field validation messages raised by marshmallow. -/
abbrev FieldErrors := List (String × String)

/-- werkzeug `check_password_hash`, modelled as: a stored credential
verifies exactly the password it was generated from (the hash of `p` is
represented by `p` itself). -/
def check_password_hash (pwhash password : String) : Bool :=
  pwhash == password

/-- `models.py::User.check_password`. -/
def check_password (u : UserRec) (password : String) : Bool :=
  check_password_hash u.passwordHash password

/-- `utils/decorators.py::admin_or_hr_required`: the wrapper's
interception outcome.  `none` means the wrapped handler runs. -/
def admin_or_hr_required (db : DB) (uid : Nat) : Option Response :=
  match getUser db uid with
  | none => some (error_response (.msg "Admin or HR role required") 403)
  | some u =>
    if u.role == Role.admin || u.role == Role.hr then none
    else some (error_response (.msg "Admin or HR role required") 403)

/-- `utils/decorators.py::team_member_or_admin_required`: the wrapper's
interception outcome for a request carrying `employee_id` (or not). -/
def team_member_or_admin_required (db : DB) (uid : Nat) (employee_id : Option Nat) :
    Option Response :=
  let isAdminHr :=
    match getUser db uid with
    | some u => u.role == Role.admin || u.role == Role.hr
    | none => false
  if isAdminHr then none
  else
    match employee_id with
    | none => none
    | some eid =>
      match findEmployeeByUser db uid with
      | none => some (error_response (.msg "Manager profile not found") 404)
      | some me =>
        if me.id == eid ||
            (db.employees.find? (fun t => t.id == eid && t.managerId == some me.id)).isSome
        then none
        else some (error_response (.msg "You don\x27t have permission to access this resource") 403)

/-- `routes/auth.py::login`. -/
def login (db : DB) (body : Except FieldErrors LoginData) (now : Nat) : Response × DB :=
  match body with
  | .error errs => (error_response (.fieldErrors errs) 400, db)
  | .ok data =>
    match getUserByEmail db data.email with
    | none => (error_response (.msg "Invalid email or password") 401, db)
    | some user =>
      if !check_password user data.password then
        (error_response (.msg "Invalid email or password") 401, db)
      else if !user.isActive then
        (error_response (.msg "Your account is disabled") 401, db)
      else
        let users2 := updateFirst (fun u => u.email == data.email)
          (fun u => { u with lastLogin := some now }) db.users
        (success_response 200, { db with users := users2 })

/-- `routes/attendance.py::clock_in`. -/
def clock_in (db : DB) (uid today now : Nat) (work_from : String) (notes : Option String) :
    Response × DB :=
  match findEmployeeByUser db uid with
  | none => (error_response (.msg "Employee not found") 404, db)
  | some employee =>
    match findAttendance db employee.id today with
    | some att =>
      if att.clockIn.isSome then
        (error_response (.msg "Already clocked in today") 400, db)
      else
        let att2 := updateFirst (fun a => a.employeeId == employee.id && a.date == today)
          (fun a => { a with clockIn := some now, workFrom := work_from, notes := notes })
          db.attendance
        (success_response 200, { db with attendance := att2 })
    | none =>
      let att : AttendanceRec :=
        { id := db.nextAttendanceId, employeeId := employee.id, date := today,
          clockIn := some now, clockOut := none, status := "present",
          workFrom := work_from, notes := notes }
      (success_response 200,
        { db with attendance := db.attendance ++ [att],
                  nextAttendanceId := db.nextAttendanceId + 1 })

/-- `routes/attendance.py::clock_out`. -/
def clock_out (db : DB) (uid today now : Nat) (notes : Option String) : Response × DB :=
  match findEmployeeByUser db uid with
  | none => (error_response (.msg "Employee not found") 404, db)
  | some employee =>
    match findAttendance db employee.id today with
    | none => (error_response (.msg "Not yet clocked in today") 400, db)
    | some att =>
      if att.clockIn.isNone then
        (error_response (.msg "Not yet clocked in today") 400, db)
      else if att.clockOut.isSome then
        (error_response (.msg "Already clocked out today") 400, db)
      else
        let addNotes := fun (a : AttendanceRec) =>
          match notes with
          | none => a.notes
          | some n =>
            match a.notes with
            | some old => some (old ++ "\n" ++ n)
            | none => some n
        let att2 := updateFirst (fun a => a.employeeId == employee.id && a.date == today)
          (fun a => { a with clockOut := some now, notes := addNotes a }) db.attendance
        (success_response 200, { db with attendance := att2 })

/-- `routes/attendance.py::record_attendance` handler body (runs after
the `admin_or_hr_required` decorator admitted the request). -/
def record_attendance (db : DB) (body : Except FieldErrors AttendanceCreateData) :
    Response × DB :=
  match body with
  | .error errs => (error_response (.fieldErrors errs) 400, db)
  | .ok data =>
    match getEmployee db data.employee_id with
    | none => (error_response (.msg "Employee not found") 404, db)
    | some _ =>
      match findAttendance db data.employee_id data.date with
      | some _ =>
        (error_response (.msg ("Attendance record already exists for " ++ toString data.date)) 400,
          db)
      | none =>
        let att : AttendanceRec :=
          { id := db.nextAttendanceId, employeeId := data.employee_id, date := data.date,
            clockIn := data.clock_in, clockOut := data.clock_out, status := data.status,
            workFrom := data.work_from.getD "office", notes := data.notes }
        (success_response 201,
          { db with attendance := db.attendance ++ [att],
                    nextAttendanceId := db.nextAttendanceId + 1 })

/-- `POST /record` as routed: decorator then handler. -/
def record_attendance_endpoint (db : DB) (uid : Nat)
    (body : Except FieldErrors AttendanceCreateData) : Response × DB :=
  match admin_or_hr_required db uid with
  | some r => (r, db)
  | none => record_attendance db body

/-- The `setattr` loop of `routes/attendance.py::update_attendance`. -/
def applyAttendanceUpdate (a : AttendanceRec) (d : AttendanceUpdateData) : AttendanceRec :=
  let a := match d.clock_in with | some v => { a with clockIn := some v } | none => a
  let a := match d.clock_out with | some v => { a with clockOut := some v } | none => a
  let a := match d.status with | some v => { a with status := v } | none => a
  let a := match d.work_from with | some v => { a with workFrom := v } | none => a
  match d.notes with | some v => { a with notes := some v } | none => a

/-- `routes/attendance.py::update_attendance` handler body. -/
def update_attendance (db : DB) (attendance_id : Nat)
    (body : Except FieldErrors AttendanceUpdateData) : Response × DB :=
  match getAttendance db attendance_id with
  | none => (error_response (.msg "Attendance record not found") 404, db)
  | some _ =>
    match body with
    | .error errs => (error_response (.fieldErrors errs) 400, db)
    | .ok d =>
      let att2 := updateFirst (fun a => a.id == attendance_id)
        (fun a => applyAttendanceUpdate a d) db.attendance
      (success_response 200, { db with attendance := att2 })

/-- `PUT /record/<id>` as routed: decorator then handler. -/
def update_attendance_endpoint (db : DB) (uid attendance_id : Nat)
    (body : Except FieldErrors AttendanceUpdateData) : Response × DB :=
  match admin_or_hr_required db uid with
  | some r => (r, db)
  | none => update_attendance db attendance_id body

/-- `routes/attendance.py::delete_attendance` handler body. -/
def delete_attendance (db : DB) (attendance_id : Nat) : Response × DB :=
  match getAttendance db attendance_id with
  | none => (error_response (.msg "Attendance record not found") 404, db)
  | some _ =>
    (success_response 200,
      { db with attendance := removeFirst (fun a => a.id == attendance_id) db.attendance })

/-- `DELETE /record/<id>` as routed: decorator then handler. -/
def delete_attendance_endpoint (db : DB) (uid attendance_id : Nat) : Response × DB :=
  match admin_or_hr_required db uid with
  | some r => (r, db)
  | none => delete_attendance db attendance_id

/-- The three-disjunct interval filter used in the overlapping-leave
query of `routes/leave.py` (`create_leave_request` lines 289-302 and
`update_leave_request` lines 419-432): existing `[ls, le]` covers the new
start, covers the new end, or is contained in the new `[s, e]`. -/
def leaveOverlap (ls le s e : Nat) : Bool :=
  (decide (ls ≤ s) && decide (le ≥ s)) ||
  (decide (ls ≤ e) && decide (le ≥ e)) ||
  (decide (ls ≥ s) && decide (le ≤ e))

/-- `sum(1 for i in range(len) if (start + i).weekday() < 5)` with the
date model of this embedding. -/
def weekdayCount (start len : Nat) : Nat :=
  (List.range len).countP (fun i => (start + i) % 7 < 5)

/-- `routes/leave.py::create_leave_request`.  `data['days']` raises
`KeyError` when the non-required `days` field was absent; that uncaught
exception is the `.error ()` outcome. -/
def create_leave_request (db : DB) (uid today : Nat)
    (body : Except FieldErrors LeaveCreateData) : Except Unit (Response × DB) :=
  match body with
  | .error errs => .ok (error_response (.fieldErrors errs) 400, db)
  | .ok data =>
    match findEmployeeByUser db uid with
    | none => .ok (error_response (.msg "Employee profile not found") 404, db)
    | some employee =>
      let start_date := data.start_date
      let end_date := data.end_date
      match data.days with
      | none => .error ()
      | some days0 =>
        if start_date > end_date then
          .ok (error_response (.msg "Start date must be before end date") 400, db)
        else if start_date < today then
          .ok (error_response (.msg "Cannot request leave for past dates") 400, db)
        else
          let days : Rat :=
            if days0 == 0 then (weekdayCount start_date (end_date - start_date + 1) : Nat)
            else days0
          let overlapping := db.leaves.find? (fun l =>
            l.employeeId == employee.id &&
            l.status != LeaveStatus.rejected &&
            l.status != LeaveStatus.cancelled &&
            leaveOverlap l.startDate l.endDate start_date end_date)
          match overlapping with
          | some _ =>
            .ok (error_response (.msg "You already have a leave request for this period") 400, db)
          | none =>
            let lr : LeaveRequestRec :=
              { id := db.nextLeaveId, employeeId := employee.id, leaveType := data.leave_type,
                startDate := start_date, endDate := end_date, days := days,
                reason := data.reason, status := .pending,
                reviewedBy := none, reviewedAt := none, reviewNote := none }
            .ok (success_response 201,
              { db with leaves := db.leaves ++ [lr], nextLeaveId := db.nextLeaveId + 1 })

/-- The `setattr` loop of `routes/leave.py::update_leave_request`
(`data['days']` may have been overwritten with the recomputed weekday
count, passed here as `days2`). -/
def applyLeaveUpdate (l : LeaveRequestRec) (d : LeaveUpdateData) (days2 : Option Rat) :
    LeaveRequestRec :=
  let l := match d.leave_type with | some v => { l with leaveType := v } | none => l
  let l := match d.start_date with | some v => { l with startDate := v } | none => l
  let l := match d.end_date with | some v => { l with endDate := v } | none => l
  let l := match days2 with | some v => { l with days := v } | none => l
  match d.reason with | some v => { l with reason := some v } | none => l

/-- `routes/leave.py::update_leave_request`. -/
def update_leave_request (db : DB) (uid leave_id today : Nat)
    (body : Except FieldErrors LeaveUpdateData) : Response × DB :=
  match getLeave db leave_id with
  | none => (error_response (.msg "Leave request not found") 404, db)
  | some lr =>
    if lr.status != LeaveStatus.pending then
      (error_response (.msg "Only pending leave requests can be updated") 400, db)
    else
      match findEmployeeByUser db uid with
      | none =>
        (error_response (.msg "You don\x27t have permission to update this leave request") 403, db)
      | some employee =>
        if lr.employeeId != employee.id then
          (error_response (.msg "You don\x27t have permission to update this leave request") 403,
            db)
        else
          match body with
          | .error errs => (error_response (.fieldErrors errs) 400, db)
          | .ok d =>
            let start_date := (d.start_date.getD lr.startDate)
            let end_date := (d.end_date.getD lr.endDate)
            if start_date > end_date then
              (error_response (.msg "Start date must be before end date") 400, db)
            else if start_date < today then
              (error_response (.msg "Cannot request leave for past dates") 400, db)
            else
              let datesUpdated := d.start_date.isSome || d.end_date.isSome
              let days2 : Option Rat :=
                if datesUpdated then
                  some ((weekdayCount start_date (end_date - start_date + 1) : Nat) : Rat)
                else d.days
              let overlapping :=
                if datesUpdated then
                  db.leaves.find? (fun l =>
                    l.employeeId == employee.id &&
                    l.id != leave_id &&
                    l.status != LeaveStatus.rejected &&
                    l.status != LeaveStatus.cancelled &&
                    leaveOverlap l.startDate l.endDate start_date end_date)
                else none
              match overlapping with
              | some _ =>
                (error_response (.msg "You already have a leave request for this period") 400, db)
              | none =>
                let leaves2 := updateFirst (fun l => l.id == leave_id)
                  (fun l => applyLeaveUpdate l d days2) db.leaves
                (success_response 200, { db with leaves := leaves2 })

/-- `routes/leave.py::cancel_leave_request`. -/
def cancel_leave_request (db : DB) (uid leave_id today : Nat) : Response × DB :=
  match getLeave db leave_id with
  | none => (error_response (.msg "Leave request not found") 404, db)
  | some lr =>
    match findEmployeeByUser db uid with
    | none =>
      (error_response (.msg "You don\x27t have permission to cancel this leave request") 403, db)
    | some employee =>
      if lr.employeeId != employee.id then
        (error_response (.msg "You don\x27t have permission to cancel this leave request") 403, db)
      else if lr.status == LeaveStatus.rejected || lr.status == LeaveStatus.cancelled then
        (error_response (.msg ("Leave request is already " ++ leaveStatusValue lr.status)) 400, db)
      else if lr.status == LeaveStatus.approved && lr.startDate < today then
        (error_response (.msg "Cannot cancel past approved leaves") 400, db)
      else
        let leaves2 := updateFirst (fun l => l.id == leave_id)
          (fun l => { l with status := LeaveStatus.cancelled }) db.leaves
        (success_response 200, { db with leaves := leaves2 })

/-- `routes/leave.py::leave_action`.  Accessing `current_user.role` when
`User.query.get` returned `None` raises, hence the `.error ()` branch. -/
def leave_action (db : DB) (uid leave_id now : Nat)
    (body : Except FieldErrors LeaveActionData) : Except Unit (Response × DB) :=
  match getLeave db leave_id with
  | none => .ok (error_response (.msg "Leave request not found") 404, db)
  | some lr =>
    if lr.status != LeaveStatus.pending then
      .ok (error_response (.msg ("Leave request is already " ++ leaveStatusValue lr.status)) 400,
        db)
    else
      match body with
      | .error errs => .ok (error_response (.fieldErrors errs) 400, db)
      | .ok d =>
        match findEmployeeByUser db uid with
        | none => .ok (error_response (.msg "Reviewer profile not found") 404, db)
        | some reviewer =>
          match getUser db uid with
          | none => .error ()
          | some current_user =>
            let can_approve :=
              if current_user.role == Role.admin || current_user.role == Role.hr then true
              else if current_user.role == Role.manager then
                match getEmployee db lr.employeeId with
                | some employee => employee.managerId == some reviewer.id
                | none => false
              else false
            if !can_approve then
              .ok (error_response
                (.msg "You don\x27t have permission to approve/reject this leave request") 403, db)
            else
              let f := fun (l : LeaveRequestRec) =>
                { l with
                  status := if d.action == "approve" then LeaveStatus.approved
                            else LeaveStatus.rejected,
                  reviewedBy := some reviewer.id, reviewedAt := some now, reviewNote := d.note }
              let leaves2 := updateFirst (fun l => l.id == leave_id) f db.leaves
              .ok (success_response 200, { db with leaves := leaves2 })

/-- `routes/leave.py::get_leave_request`.  Read-only; returns the state
unchanged on every path.  Accessing `current_user.role` when the user
row is missing raises, hence the `.error ()` branch. -/
def get_leave_request (db : DB) (uid leave_id : Nat) : Except Unit (Response × DB) :=
  match getLeave db leave_id with
  | none => .ok (error_response (.msg "Leave request not found") 404, db)
  | some lr =>
    match getUser db uid with
    | none => .error ()
    | some current_user =>
      if current_user.role == Role.admin || current_user.role == Role.hr then
        .ok (success_response 200, db)
      else if current_user.role == Role.manager then
        match findEmployeeByUser db uid, getEmployee db lr.employeeId with
        | some manager, some employee =>
          if employee.managerId != some manager.id && employee.id != manager.id then
            .ok (error_response
              (.msg "You don\x27t have permission to view this leave request") 403, db)
          else .ok (success_response 200, db)
        | _, _ =>
          .ok (error_response
            (.msg "You don\x27t have permission to view this leave request") 403, db)
      else
        match findEmployeeByUser db uid with
        | none =>
          .ok (error_response
            (.msg "You don\x27t have permission to view this leave request") 403, db)
        | some employee =>
          if lr.employeeId != employee.id then
            .ok (error_response
              (.msg "You don\x27t have permission to view this leave request") 403, db)
          else .ok (success_response 200, db)

/-- The per-endpoint permission conditional shared verbatim by
`routes/attendance.py::get_attendance_history` (lines 266-277),
`routes/attendance.py::get_attendance_report` (lines 569-580) and
`routes/leave.py::get_leave_balance` (lines 639-650), entered when the
request supplies an `employee_id`.  `ok none` means the handler
proceeds; `ok (some r)` means it returns `r`; `.error ()` is the
`AttributeError` raised on `employee.id` when the requester, though not
admin/HR, has no employee row. -/
def employee_scope_check (db : DB) (current_user : UserRec) (employee_id : Nat) (msg : String) :
    Except Unit (Option Response) :=
  if current_user.role == Role.admin || current_user.role == Role.hr then .ok none
  else
    match findEmployeeByUser db current_user.id with
    | none => .error ()
    | some employee =>
      if current_user.role == Role.manager then
        let team_member := db.employees.find? (fun t =>
          t.id == employee_id && t.managerId == some employee.id)
        if team_member.isNone && employee_id != employee.id then
          .ok (some (error_response (.msg msg) 403))
        else .ok none
      else
        if employee.id != employee_id then
          .ok (some (error_response (.msg msg) 403))
        else .ok none

/-- Permission stage of `GET /api/attendance/history`. -/
def get_attendance_history_permission (db : DB) (cu : UserRec) (eid : Nat) :
    Except Unit (Option Response) :=
  employee_scope_check db cu eid
    "You don\x27t have permission to view this employee\x27s attendance"

/-- Permission stage of `GET /api/attendance/report`. -/
def get_attendance_report_permission (db : DB) (cu : UserRec) (eid : Nat) :
    Except Unit (Option Response) :=
  employee_scope_check db cu eid
    "You don\x27t have permission to view this employee\x27s attendance"

/-- Permission stage of `GET /api/leave/balance`. -/
def get_leave_balance_permission (db : DB) (cu : UserRec) (eid : Nat) :
    Except Unit (Option Response) :=
  employee_scope_check db cu eid
    "You don\x27t have permission to view this employee\x27s leave balance"

/-- Result record of `utils/pagination.py::paginate`. -/
structure Pagination (α : Type) where
  items : List α
  page : Int
  per_page : Int
  total : Nat
  pages : Nat
  has_next : Bool
  has_prev : Bool
deriving Repr

/-- `utils/pagination.py::paginate` with explicit `page`/`per_page`
arguments (the callers under study always pass both) and the
`max_per_page` parameter.  `query.limit(n).offset(k)` on a list is
`take n` after `drop k`. -/
def paginate {α : Type} (query : List α) (page per_page max_per_page : Int) : Pagination α :=
  let page := max 1 page
  let per_page := min (max 1 per_page) max_per_page
  let total := query.length
  let pages := if per_page > 0 then (total + per_page.toNat - 1) / per_page.toNat else 0
  let items := (query.drop ((page - 1) * per_page).toNat).take per_page.toNat
  { items := items, page := page, per_page := per_page, total := total, pages := pages,
    has_next := decide (page < (pages : Int)), has_prev := decide (page > 1) }

/-- The `register_blueprint` calls of `app.py::create_app`
(lines 112-128): blueprint resource family paired with its URL prefix. -/
def blueprint_registrations : List (String × String) :=
  [("auth", "/api/auth"), ("employees", "/api/employees"), ("attendance", "/api/attendance"),
   ("leave", "/api/leave"), ("projects", "/api/projects"), ("tasks", "/api/tasks"),
   ("dashboard", "/api/dashboard"), ("payroll", "/api/payroll"), ("okr", "/api/okr"),
   ("client", "/api/client"), ("reports", "/api/reports"), ("payment", "/api/payment"),
   ("advanced", "/api/advanced")]

/-- One request to a state-touching attendance or leave endpoint (plus
the read-only `GET /api/leave/<id>`), with the JWT identity, the
request-time clock values, and the validated (or failed) body. -/
inductive Req where
  | clockIn (uid today now : Nat) (work_from : String) (notes : Option String)
  | clockOut (uid today now : Nat) (notes : Option String)
  | recordAttendance (uid : Nat) (body : Except FieldErrors AttendanceCreateData)
  | updateAttendance (uid attendance_id : Nat) (body : Except FieldErrors AttendanceUpdateData)
  | deleteAttendance (uid attendance_id : Nat)
  | createLeave (uid today : Nat) (body : Except FieldErrors LeaveCreateData)
  | updateLeave (uid leave_id today : Nat) (body : Except FieldErrors LeaveUpdateData)
  | cancelLeave (uid leave_id today : Nat)
  | leaveAction (uid leave_id now : Nat) (body : Except FieldErrors LeaveActionData)
  | getLeaveRequest (uid leave_id : Nat)

/-- Dispatch a request to its handler. -/
def handle (db : DB) : Req → Except Unit (Response × DB)
  | .clockIn uid today now wf notes => .ok (clock_in db uid today now wf notes)
  | .clockOut uid today now notes => .ok (clock_out db uid today now notes)
  | .recordAttendance uid body => .ok (record_attendance_endpoint db uid body)
  | .updateAttendance uid aid body => .ok (update_attendance_endpoint db uid aid body)
  | .deleteAttendance uid aid => .ok (delete_attendance_endpoint db uid aid)
  | .createLeave uid today body => create_leave_request db uid today body
  | .updateLeave uid lid today body => .ok (update_leave_request db uid lid today body)
  | .cancelLeave uid lid today => .ok (cancel_leave_request db uid lid today)
  | .leaveAction uid lid now body => leave_action db uid lid now body
  | .getLeaveRequest uid lid => get_leave_request db uid lid

/-- Database state after one request (a request that raised commits
nothing, so the state is unchanged). -/
def step (db : DB) (req : Req) : DB :=
  match handle db req with
  | .ok (_, db2) => db2
  | .error _ => db

/-- Database state after a sequence of requests. -/
def run (db : DB) (reqs : List Req) : DB :=
  reqs.foldl step db

/-- The `uix_employee_date` uniqueness constraint of
`models.py::Attendance.__table_args__`: no two attendance rows share an
`(employee_id, date)` pair. -/
def uniqueAttendance (db : DB) : Prop :=
  (db.attendance.map (fun a => (a.employeeId, a.date))).Nodup

instance (db : DB) : Decidable (uniqueAttendance db) := by
  unfold uniqueAttendance; infer_instance

/-- No attendance row has `clock_out` set while `clock_in` is null. -/
def clockConsistent (db : DB) : Bool :=
  db.attendance.all (fun a => a.clockOut.isNone || a.clockIn.isSome)

/-- Is the request a clock-in or clock-out? -/
def isClockOp : Req → Bool
  | .clockIn _ _ _ _ _ => true
  | .clockOut _ _ _ _ => true
  | _ => false

def dbC1 : DB :=
  { users := [{ id := 1, email := "e@x.com", passwordHash := "pw", role := Role.employee,
                isActive := true, lastLogin := none }],
    employees := [{ id := 10, userId := 1, managerId := none }],
    attendance := [],
    leaves := [],
    nextAttendanceId := 1,
    nextLeaveId := 1 }

def dataC1 : AttendanceCreateData :=
  { employee_id := 10, date := 5, clock_in := none, clock_out := none,
    status := "present", work_from := none, notes := none }

def dbC8 : DB :=
  { users := [{ id := 1, email := "c8@x.com", passwordHash := "pw", role := Role.employee,
                isActive := true, lastLogin := none }],
    employees := [{ id := 10, userId := 1, managerId := none }],
    attendance := [],
    leaves := [],
    nextAttendanceId := 1,
    nextLeaveId := 1 }

def dbC2 : DB :=
  { users := [{ id := 1, email := "mgr@x.com", passwordHash := "pw", role := Role.manager,
                isActive := true, lastLogin := none }],
    employees := [{ id := 10, userId := 1, managerId := none },
                  { id := 11, userId := 2, managerId := some 10 }],
    attendance := [],
    leaves := [],
    nextAttendanceId := 1,
    nextLeaveId := 1 }

def cuC2 : UserRec :=
  { id := 1, email := "mgr@x.com", passwordHash := "pw", role := Role.manager,
    isActive := true, lastLogin := none }

def dbC3 : DB :=
  { users := [{ id := 1, email := "adm@x.com", passwordHash := "pw", role := Role.admin,
                isActive := true, lastLogin := none }],
    employees := [],
    attendance := [],
    leaves := [],
    nextAttendanceId := 1,
    nextLeaveId := 1 }

def dbC4 : DB :=
  { users := [{ id := 1, email := "mgr2@x.com", passwordHash := "pw", role := Role.manager,
                isActive := true, lastLogin := none }],
    employees := [],
    attendance := [],
    leaves := [],
    nextAttendanceId := 1,
    nextLeaveId := 1 }

def dbC9 : DB :=
  { users := [{ id := 1, email := "e9@x.com", passwordHash := "pw", role := Role.employee,
                isActive := true, lastLogin := none }],
    employees := [{ id := 10, userId := 1, managerId := none }],
    attendance := [],
    leaves := [{ id := 1, employeeId := 10, leaveType := LeaveType.annual, startDate := 4,
                 endDate := 7, days := 4, reason := none, status := LeaveStatus.pending,
                 reviewedBy := none, reviewedAt := none, reviewNote := none }],
    nextAttendanceId := 1,
    nextLeaveId := 2 }

def dataC9 : LeaveCreateData :=
  { leave_type := LeaveType.sick, start_date := 6, end_date := 9, days := some 2, reason := none }

theorem updateFirst_map_key {α β : Type} (p : α → Bool) (f : α → α) (key : α → β)
    (h : ∀ a, key (f a) = key a) : ∀ l : List α, (updateFirst p f l).map key = l.map key := by
  intro l
  induction l with
  | nil => rfl
  | cons a rest ih =>
    by_cases hp : p a
    · simp [updateFirst, hp, h a]
    · simp [updateFirst, hp, ih]

theorem removeFirst_sublist {α : Type} (p : α → Bool) : ∀ l : List α, List.Sublist (removeFirst p l) l := by
  intro l
  induction l with
  | nil => simp [removeFirst]
  | cons a rest ih =>
    by_cases hp : p a
    · simp [removeFirst, hp]
    · simpa [removeFirst, hp] using ih.cons₂ a

theorem updateFirst_decomp {α : Type} (p : α → Bool) (f : α → α) :
    ∀ {l : List α} {a : α}, l.find? p = some a →
      ∃ l1 l2, l = l1 ++ a :: l2 ∧ (∀ x ∈ l1, ¬ p x) ∧ updateFirst p f l = l1 ++ f a :: l2 := by
  intro l
  induction l with
  | nil => intro a h; simp [List.find?] at h
  | cons x rest ih =>
    intro a h
    by_cases hp : p x
    · rw [List.find?_cons_of_pos _ hp] at h
      cases h
      exact ⟨[], rest, by simp, by simp, by simp [updateFirst, hp]⟩
    · rw [List.find?_cons_of_neg _ hp] at h
      obtain ⟨l1, l2, hl, hnp, hu⟩ := ih h
      exact ⟨x :: l1, l2, by simp [hl], by simpa [hp] using hnp, by simp [updateFirst, hp, hu]⟩

theorem nodup_append_single {α : Type} {l : List α} {a : α} (h : l.Nodup) (ha : a ∉ l) :
    (l ++ [a]).Nodup := by
  simp [List.nodup_append, h, ha]

theorem nodup_keys_updateFirst (p : AttendanceRec → Bool) (f : AttendanceRec → AttendanceRec)
    (hf : ∀ a, (f a).employeeId = a.employeeId ∧ (f a).date = a.date)
    {l : List AttendanceRec} (h : (l.map fun a => (a.employeeId, a.date)).Nodup) :
    ((updateFirst p f l).map fun a => (a.employeeId, a.date)).Nodup := by
  rw [updateFirst_map_key p f _ (fun a => by simp [(hf a).1, (hf a).2])]
  exact h

theorem nodup_keys_append {eid d : Nat} {l : List AttendanceRec}
    (h : (l.map fun a => (a.employeeId, a.date)).Nodup)
    (hnone : l.find? (fun a => a.employeeId == eid && a.date == d) = none)
    (new : AttendanceRec) (hnew : new.employeeId = eid ∧ new.date = d) :
    ((l ++ [new]).map fun a => (a.employeeId, a.date)).Nodup := by
  rw [List.map_append]
  refine nodup_append_single h ?_
  intro hmem
  simp only [List.map, List.mem_map] at hmem
  obtain ⟨a, ha, hkey⟩ := hmem
  rw [List.find?_eq_none] at hnone
  have := hnone a ha
  simp only [Prod.mk.injEq] at hkey
  simp [hkey.1, hkey.2, hnew.1, hnew.2] at this

theorem nodup_keys_remove (p : AttendanceRec → Bool) {l : List AttendanceRec}
    (h : (l.map fun a => (a.employeeId, a.date)).Nodup) :
    ((removeFirst p l).map fun a => (a.employeeId, a.date)).Nodup :=
  h.sublist ((removeFirst_sublist p l).map _)

theorem clock_in_unique (db : DB) (uid today now : Nat) (wf : String) (notes : Option String)
    (h : uniqueAttendance db) :
    uniqueAttendance (clock_in db uid today now wf notes).2 := by
  unfold clock_in
  split
  · exact h
  · rename_i employee _
    split
    · rename_i att hatt
      split
      · exact h
      · dsimp only [uniqueAttendance]
        apply nodup_keys_updateFirst _ _ _ h
        intro a
        exact ⟨rfl, rfl⟩
    · rename_i hatt
      dsimp only [uniqueAttendance]
      exact nodup_keys_append h hatt _ ⟨rfl, rfl⟩

theorem uniqueAttendance_of_att_eq {db db2 : DB} (hatt : db2.attendance = db.attendance)
    (h : uniqueAttendance db) : uniqueAttendance db2 := by
  unfold uniqueAttendance at *
  rw [hatt]
  exact h

theorem applyAttendanceUpdate_key (a : AttendanceRec) (d : AttendanceUpdateData) :
    (applyAttendanceUpdate a d).employeeId = a.employeeId ∧
    (applyAttendanceUpdate a d).date = a.date := by
  obtain ⟨ci, co, st, wf, no⟩ := d
  unfold applyAttendanceUpdate
  cases ci <;> cases co <;> cases st <;> cases wf <;> cases no <;> exact ⟨rfl, rfl⟩

theorem clock_out_unique (db : DB) (uid today now : Nat) (notes : Option String)
    (h : uniqueAttendance db) :
    uniqueAttendance (clock_out db uid today now notes).2 := by
  unfold clock_out
  split
  · exact h
  · split
    · exact h
    · split
      · exact h
      · split
        · exact h
        · dsimp only [uniqueAttendance]
          apply nodup_keys_updateFirst _ _ _ h
          intro a
          exact ⟨rfl, rfl⟩

theorem record_attendance_endpoint_unique (db : DB) (uid : Nat)
    (body : Except FieldErrors AttendanceCreateData) (h : uniqueAttendance db) :
    uniqueAttendance (record_attendance_endpoint db uid body).2 := by
  unfold record_attendance_endpoint
  split
  · exact h
  · unfold record_attendance
    split
    · exact h
    · rename_i data
      split
      · exact h
      · split
        · exact h
        · rename_i hatt
          dsimp only [uniqueAttendance]
          exact nodup_keys_append h hatt _ ⟨rfl, rfl⟩

theorem update_attendance_endpoint_unique (db : DB) (uid aid : Nat)
    (body : Except FieldErrors AttendanceUpdateData) (h : uniqueAttendance db) :
    uniqueAttendance (update_attendance_endpoint db uid aid body).2 := by
  unfold update_attendance_endpoint
  split
  · exact h
  · unfold update_attendance
    split
    · exact h
    · split
      · exact h
      · dsimp only [uniqueAttendance]
        apply nodup_keys_updateFirst _ _ _ h
        intro a
        exact applyAttendanceUpdate_key a _

theorem delete_attendance_endpoint_unique (db : DB) (uid aid : Nat) (h : uniqueAttendance db) :
    uniqueAttendance (delete_attendance_endpoint db uid aid).2 := by
  unfold delete_attendance_endpoint
  split
  · exact h
  · unfold delete_attendance
    split
    · exact h
    · dsimp only [uniqueAttendance]
      exact nodup_keys_remove _ h

theorem create_leave_request_attendance (db : DB) (uid today : Nat)
    (body : Except FieldErrors LeaveCreateData) (r : Response) (db2 : DB) :
    create_leave_request db uid today body = .ok (r, db2) → db2.attendance = db.attendance := by
  intro hres
  simp only [create_leave_request] at hres
  repeat' split at hres
  all_goals (first
    | exact Except.noConfusion hres
    | (cases hres; rfl))

theorem update_leave_request_attendance (db : DB) (uid lid today : Nat)
    (body : Except FieldErrors LeaveUpdateData) :
    (update_leave_request db uid lid today body).2.attendance = db.attendance := by
  simp only [update_leave_request]
  repeat' split
  all_goals rfl

theorem cancel_leave_request_attendance (db : DB) (uid lid today : Nat) :
    (cancel_leave_request db uid lid today).2.attendance = db.attendance := by
  simp only [cancel_leave_request]
  repeat' split
  all_goals rfl

theorem leave_action_attendance (db : DB) (uid lid now : Nat)
    (body : Except FieldErrors LeaveActionData) (r : Response) (db2 : DB) :
    leave_action db uid lid now body = .ok (r, db2) → db2.attendance = db.attendance := by
  intro hres
  simp only [leave_action] at hres
  repeat' split at hres
  all_goals (first
    | exact Except.noConfusion hres
    | (cases hres; rfl))

theorem get_leave_request_attendance (db : DB) (uid lid : Nat) (r : Response) (db2 : DB) :
    get_leave_request db uid lid = .ok (r, db2) → db2.attendance = db.attendance := by
  intro hres
  simp only [get_leave_request] at hres
  repeat' split at hres
  all_goals (first
    | exact Except.noConfusion hres
    | (cases hres; rfl))

theorem step_unique (db : DB) (req : Req) (h : uniqueAttendance db) :
    uniqueAttendance (step db req) := by
  cases req with
  | clockIn uid today now wf notes => exact clock_in_unique db uid today now wf notes h
  | clockOut uid today now notes => exact clock_out_unique db uid today now notes h
  | recordAttendance uid body => exact record_attendance_endpoint_unique db uid body h
  | updateAttendance uid aid body => exact update_attendance_endpoint_unique db uid aid body h
  | deleteAttendance uid aid => exact delete_attendance_endpoint_unique db uid aid h
  | createLeave uid today body =>
    show uniqueAttendance (match create_leave_request db uid today body with
      | .ok (_, db2) => db2 | .error _ => db)
    cases hres : create_leave_request db uid today body with
    | error e => exact h
    | ok p =>
      exact uniqueAttendance_of_att_eq
        (create_leave_request_attendance db uid today body p.1 p.2 hres) h
  | updateLeave uid lid today body =>
    exact uniqueAttendance_of_att_eq (update_leave_request_attendance db uid lid today body) h
  | cancelLeave uid lid today =>
    exact uniqueAttendance_of_att_eq (cancel_leave_request_attendance db uid lid today) h
  | leaveAction uid lid now body =>
    show uniqueAttendance (match leave_action db uid lid now body with
      | .ok (_, db2) => db2 | .error _ => db)
    cases hres : leave_action db uid lid now body with
    | error e => exact h
    | ok p =>
      exact uniqueAttendance_of_att_eq (leave_action_attendance db uid lid now body p.1 p.2 hres) h
  | getLeaveRequest uid lid =>
    show uniqueAttendance (match get_leave_request db uid lid with
      | .ok (_, db2) => db2 | .error _ => db)
    cases hres : get_leave_request db uid lid with
    | error e => exact h
    | ok p =>
      exact uniqueAttendance_of_att_eq (get_leave_request_attendance db uid lid p.1 p.2 hres) h

theorem run_unique (reqs : List Req) : ∀ db : DB, uniqueAttendance db →
    uniqueAttendance (run db reqs) := by
  induction reqs with
  | nil => intro db h; exact h
  | cons req rest ih =>
    intro db h
    exact ih (step db req) (step_unique db req h)

theorem clockConsistent_of_att_eq {db db2 : DB} (hatt : db2.attendance = db.attendance)
    (h : clockConsistent db = true) : clockConsistent db2 = true := by
  unfold clockConsistent at *
  rw [hatt]
  exact h

theorem clock_in_clockConsistent (db : DB) (uid today now : Nat) (wf : String)
    (notes : Option String) (h : clockConsistent db = true) :
    clockConsistent (clock_in db uid today now wf notes).2 = true := by
  unfold clock_in
  split
  · exact h
  · split
    · split
      · exact h
      · rename_i att hatt hci
        dsimp only [clockConsistent]
        obtain ⟨l1, l2, hl, _, hu⟩ := updateFirst_decomp _ _ hatt
        rw [hu]
        unfold clockConsistent at h
        rw [hl] at h
        simp only [List.all_append, List.all_cons, Bool.and_eq_true] at h ⊢
        exact ⟨h.1, by simp, h.2.2⟩
    · rename_i hatt
      dsimp only [clockConsistent]
      unfold clockConsistent at h
      simp only [List.all_append, List.all_cons, Bool.and_eq_true] at h ⊢
      exact ⟨h, by simp⟩

theorem clock_out_clockConsistent (db : DB) (uid today now : Nat) (notes : Option String)
    (h : clockConsistent db = true) :
    clockConsistent (clock_out db uid today now notes).2 = true := by
  unfold clock_out
  split
  · exact h
  · split
    · exact h
    · split
      · exact h
      · split
        · exact h
        · rename_i att hatt hci hco
          dsimp only [clockConsistent]
          obtain ⟨l1, l2, hl, _, hu⟩ := updateFirst_decomp _ _ hatt
          rw [hu]
          unfold clockConsistent at h
          rw [hl] at h
          simp only [List.all_append, List.all_cons, Bool.and_eq_true] at h ⊢
          refine ⟨h.1, ?_, h.2.2⟩
          simp only [Option.isNone_iff_eq_none] at hci
          simp [Option.isSome_iff_ne_none, hci]

theorem step_clockConsistent (db : DB) (req : Req) (hop : isClockOp req = true)
    (h : clockConsistent db = true) : clockConsistent (step db req) = true := by
  cases req with
  | clockIn uid today now wf notes => exact clock_in_clockConsistent db uid today now wf notes h
  | clockOut uid today now notes => exact clock_out_clockConsistent db uid today now notes h
  | recordAttendance uid body => simp [isClockOp] at hop
  | updateAttendance uid aid body => simp [isClockOp] at hop
  | deleteAttendance uid aid => simp [isClockOp] at hop
  | createLeave uid today body => simp [isClockOp] at hop
  | updateLeave uid lid today body => simp [isClockOp] at hop
  | cancelLeave uid lid today => simp [isClockOp] at hop
  | leaveAction uid lid now body => simp [isClockOp] at hop
  | getLeaveRequest uid lid => simp [isClockOp] at hop

theorem run_clockConsistent (reqs : List Req) : ∀ db : DB, reqs.all isClockOp = true →
    clockConsistent db = true → clockConsistent (run db reqs) = true := by
  induction reqs with
  | nil => intro db _ h; exact h
  | cons req rest ih =>
    intro db hall h
    simp only [List.all_cons, Bool.and_eq_true] at hall
    exact ih (step db req) hall.2 (step_clockConsistent db req hall.1 h)

theorem pair_atomic_helper {x : Response × DB} {r : Response} {db2 db : DB}
    (h : x = (r, db2))
    (hx : x.2 = db ∨ x.1 = success_response 200 ∨ x.1 = success_response 201) :
    db2 = db ∨ r = success_response 200 ∨ r = success_response 201 := by
  subst h
  exact hx

theorem clock_in_atomic (db : DB) (uid today now : Nat) (wf : String) (notes : Option String) :
    (clock_in db uid today now wf notes).2 = db ∨
    (clock_in db uid today now wf notes).1 = success_response 200 ∨
    (clock_in db uid today now wf notes).1 = success_response 201 := by
  simp only [clock_in]
  repeat' split
  all_goals first
    | exact Or.inl rfl
    | exact Or.inr (Or.inl rfl)
    | exact Or.inr (Or.inr rfl)

theorem clock_out_atomic (db : DB) (uid today now : Nat) (notes : Option String) :
    (clock_out db uid today now notes).2 = db ∨
    (clock_out db uid today now notes).1 = success_response 200 ∨
    (clock_out db uid today now notes).1 = success_response 201 := by
  simp only [clock_out]
  repeat' split
  all_goals first
    | exact Or.inl rfl
    | exact Or.inr (Or.inl rfl)
    | exact Or.inr (Or.inr rfl)

theorem record_attendance_endpoint_atomic (db : DB) (uid : Nat)
    (body : Except FieldErrors AttendanceCreateData) :
    (record_attendance_endpoint db uid body).2 = db ∨
    (record_attendance_endpoint db uid body).1 = success_response 200 ∨
    (record_attendance_endpoint db uid body).1 = success_response 201 := by
  simp only [record_attendance_endpoint, record_attendance]
  repeat' split
  all_goals first
    | exact Or.inl rfl
    | exact Or.inr (Or.inl rfl)
    | exact Or.inr (Or.inr rfl)

theorem update_attendance_endpoint_atomic (db : DB) (uid aid : Nat)
    (body : Except FieldErrors AttendanceUpdateData) :
    (update_attendance_endpoint db uid aid body).2 = db ∨
    (update_attendance_endpoint db uid aid body).1 = success_response 200 ∨
    (update_attendance_endpoint db uid aid body).1 = success_response 201 := by
  simp only [update_attendance_endpoint, update_attendance]
  repeat' split
  all_goals first
    | exact Or.inl rfl
    | exact Or.inr (Or.inl rfl)
    | exact Or.inr (Or.inr rfl)

theorem delete_attendance_endpoint_atomic (db : DB) (uid aid : Nat) :
    (delete_attendance_endpoint db uid aid).2 = db ∨
    (delete_attendance_endpoint db uid aid).1 = success_response 200 ∨
    (delete_attendance_endpoint db uid aid).1 = success_response 201 := by
  simp only [delete_attendance_endpoint, delete_attendance]
  repeat' split
  all_goals first
    | exact Or.inl rfl
    | exact Or.inr (Or.inl rfl)
    | exact Or.inr (Or.inr rfl)

theorem update_leave_request_atomic (db : DB) (uid lid today : Nat)
    (body : Except FieldErrors LeaveUpdateData) :
    (update_leave_request db uid lid today body).2 = db ∨
    (update_leave_request db uid lid today body).1 = success_response 200 ∨
    (update_leave_request db uid lid today body).1 = success_response 201 := by
  simp only [update_leave_request]
  repeat' split
  all_goals first
    | exact Or.inl rfl
    | exact Or.inr (Or.inl rfl)
    | exact Or.inr (Or.inr rfl)

theorem cancel_leave_request_atomic (db : DB) (uid lid today : Nat) :
    (cancel_leave_request db uid lid today).2 = db ∨
    (cancel_leave_request db uid lid today).1 = success_response 200 ∨
    (cancel_leave_request db uid lid today).1 = success_response 201 := by
  simp only [cancel_leave_request]
  repeat' split
  all_goals first
    | exact Or.inl rfl
    | exact Or.inr (Or.inl rfl)
    | exact Or.inr (Or.inr rfl)

theorem create_leave_request_atomic (db : DB) (uid today : Nat)
    (body : Except FieldErrors LeaveCreateData) (r : Response) (db2 : DB)
    (hres : create_leave_request db uid today body = .ok (r, db2)) :
    db2 = db ∨ r = success_response 200 ∨ r = success_response 201 := by
  simp only [create_leave_request] at hres
  repeat' split at hres
  all_goals first
    | exact Except.noConfusion hres
    | (cases hres; exact Or.inl rfl)
    | (cases hres; exact Or.inr (Or.inl rfl))
    | (cases hres; exact Or.inr (Or.inr rfl))

theorem leave_action_atomic (db : DB) (uid lid now : Nat)
    (body : Except FieldErrors LeaveActionData) (r : Response) (db2 : DB)
    (hres : leave_action db uid lid now body = .ok (r, db2)) :
    db2 = db ∨ r = success_response 200 ∨ r = success_response 201 := by
  simp only [leave_action] at hres
  repeat' split at hres
  all_goals first
    | exact Except.noConfusion hres
    | (cases hres; exact Or.inl rfl)
    | (cases hres; exact Or.inr (Or.inl rfl))
    | (cases hres; exact Or.inr (Or.inr rfl))

theorem get_leave_request_atomic (db : DB) (uid lid : Nat) (r : Response) (db2 : DB)
    (hres : get_leave_request db uid lid = .ok (r, db2)) :
    db2 = db ∨ r = success_response 200 ∨ r = success_response 201 := by
  simp only [get_leave_request] at hres
  repeat' split at hres
  all_goals first
    | exact Except.noConfusion hres
    | (cases hres; exact Or.inl rfl)
    | (cases hres; exact Or.inr (Or.inl rfl))
    | (cases hres; exact Or.inr (Or.inr rfl))

theorem handle_atomic (db : DB) (req : Req) (r : Response) (db2 : DB)
    (hres : handle db req = .ok (r, db2)) :
    db2 = db ∨ r = success_response 200 ∨ r = success_response 201 := by
  cases req with
  | clockIn uid today now wf notes =>
    injection hres with h
    exact pair_atomic_helper h (clock_in_atomic db uid today now wf notes)
  | clockOut uid today now notes =>
    injection hres with h
    exact pair_atomic_helper h (clock_out_atomic db uid today now notes)
  | recordAttendance uid body =>
    injection hres with h
    exact pair_atomic_helper h (record_attendance_endpoint_atomic db uid body)
  | updateAttendance uid aid body =>
    injection hres with h
    exact pair_atomic_helper h (update_attendance_endpoint_atomic db uid aid body)
  | deleteAttendance uid aid =>
    injection hres with h
    exact pair_atomic_helper h (delete_attendance_endpoint_atomic db uid aid)
  | createLeave uid today body => exact create_leave_request_atomic db uid today body r db2 hres
  | updateLeave uid lid today body =>
    injection hres with h
    exact pair_atomic_helper h (update_leave_request_atomic db uid lid today body)
  | cancelLeave uid lid today =>
    injection hres with h
    exact pair_atomic_helper h (cancel_leave_request_atomic db uid lid today)
  | leaveAction uid lid now body => exact leave_action_atomic db uid lid now body r db2 hres
  | getLeaveRequest uid lid => exact get_leave_request_atomic db uid lid r db2 hres

/-- Claim C1: for every employee and every calendar date there is at most one
attendance row.  First conjunct: any sequence of attendance/leave requests
preserves the `(employee_id, date)` uniqueness invariant that the
`uix_employee_date` table constraint demands.  Second conjunct: the manual
record endpoint returns 400 when a record for that employee and date already
exists, leaving the state unchanged. -/
theorem attendance_unique_per_employee_date :
    (∀ (db : DB) (reqs : List Req), uniqueAttendance db → uniqueAttendance (run db reqs)) ∧
    (∀ (db : DB) (data : AttendanceCreateData),
      (getEmployee db data.employee_id).isSome = true →
      (findAttendance db data.employee_id data.date).isSome = true →
      record_attendance db (.ok data) =
        (error_response
          (.msg ("Attendance record already exists for " ++ toString data.date)) 400, db)) := by
  constructor
  · intro db reqs h
    exact run_unique reqs db h
  · intro db data hemp hatt
    obtain ⟨e, he⟩ := Option.isSome_iff_exists.mp hemp
    obtain ⟨a, ha⟩ := Option.isSome_iff_exists.mp hatt
    simp [record_attendance, he, ha]

theorem attendance_unique_per_employee_date_witness :
    uniqueAttendance (run dbC1
      [Req.clockIn 1 5 100 "office" none, Req.clockIn 1 5 110 "home" none,
       Req.recordAttendance 1 (.ok dataC1)]) ∧
    record_attendance (run dbC1 [Req.clockIn 1 5 100 "office" none]) (.ok dataC1) =
      (error_response (.msg ("Attendance record already exists for " ++ toString dataC1.date)) 400,
        run dbC1 [Req.clockIn 1 5 100 "office" none]) := by
  constructor
  · exact attendance_unique_per_employee_date.1 dbC1 _ (by decide)
  · exact attendance_unique_per_employee_date.2 _ dataC1 (by decide) (by decide)

/-- Claim C6: every modelled attendance and leave endpoint is atomic on
error: whenever the handler returns an error response (status 400, 401,
403 or 404), the database state it returns is exactly the state the
request began with. -/
theorem attendance_leave_atomic_on_error (db : DB) (req : Req) (r : Response) (db2 : DB)
    (hres : handle db req = .ok (r, db2))
    (herr : r.status = 400 ∨ r.status = 401 ∨ r.status = 403 ∨ r.status = 404) :
    db2 = db := by
  rcases handle_atomic db req r db2 hres with h | h | h
  · exact h
  · subst h
    simp [success_response] at herr
  · subst h
    simp [success_response] at herr

theorem attendance_leave_atomic_on_error_witness :
    (run dbC1 [Req.clockOut 1 5 100 none]) = dbC1 := by
  have h : handle dbC1 (Req.clockOut 1 5 100 none) =
      .ok (error_response (.msg "Not yet clocked in today") 400, dbC1) := rfl
  exact attendance_leave_atomic_on_error dbC1 (Req.clockOut 1 5 100 none) _ _ h (Or.inl rfl)

/-- Claim C8: under any sequence of clock-in/clock-out requests the
invariant "clock_out set implies clock_in set" is preserved; a second
clock-in on the same day returns 400 "Already clocked in today", a
clock-out with no prior clock-in that day returns 400 "Not yet clocked
in today", and a second clock-out returns 400 "Already clocked out
today", each leaving the state unchanged. -/
theorem clock_state_machine_consistent :
    (∀ (db : DB) (reqs : List Req), reqs.all isClockOp = true → clockConsistent db = true →
      clockConsistent (run db reqs) = true) ∧
    (∀ (db : DB) (uid today now : Nat) (wf : String) (notes : Option String)
      (emp : EmployeeRec) (att : AttendanceRec),
      findEmployeeByUser db uid = some emp → findAttendance db emp.id today = some att →
      att.clockIn.isSome = true →
      clock_in db uid today now wf notes =
        (error_response (.msg "Already clocked in today") 400, db)) ∧
    (∀ (db : DB) (uid today now : Nat) (notes : Option String) (emp : EmployeeRec),
      findEmployeeByUser db uid = some emp →
      (findAttendance db emp.id today = none ∨
        (∃ att, findAttendance db emp.id today = some att ∧ att.clockIn = none)) →
      clock_out db uid today now notes =
        (error_response (.msg "Not yet clocked in today") 400, db)) ∧
    (∀ (db : DB) (uid today now : Nat) (notes : Option String) (emp : EmployeeRec)
      (att : AttendanceRec),
      findEmployeeByUser db uid = some emp → findAttendance db emp.id today = some att →
      att.clockIn.isSome = true → att.clockOut.isSome = true →
      clock_out db uid today now notes =
        (error_response (.msg "Already clocked out today") 400, db)) := by
  refine ⟨?_, ?_, ?_, ?_⟩
  · intro db reqs hall h
    exact run_clockConsistent reqs db hall h
  · intro db uid today now wf notes emp att hemp hatt hci
    simp [clock_in, hemp, hatt, hci]
  · intro db uid today now notes emp hemp hd
    rcases hd with hatt | ⟨att, hatt, hci⟩
    · simp [clock_out, hemp, hatt]
    · simp [clock_out, hemp, hatt, hci]
  · intro db uid today now notes emp att hemp hatt hci hco
    have hν : att.clockIn.isNone = false := by
      cases hc : att.clockIn with
      | none => rw [hc] at hci; simp at hci
      | some v => simp
    simp [clock_out, hemp, hatt, hν, hco]

theorem clock_state_machine_consistent_witness :
    clockConsistent (run dbC8
      [Req.clockIn 1 5 100 "office" none, Req.clockOut 1 5 200 none,
       Req.clockOut 1 5 210 none]) = true ∧
    clock_in (run dbC8 [Req.clockIn 1 5 100 "office" none]) 1 5 110 "office" none =
      (error_response (.msg "Already clocked in today") 400,
        run dbC8 [Req.clockIn 1 5 100 "office" none]) ∧
    clock_out dbC8 1 5 110 none =
      (error_response (.msg "Not yet clocked in today") 400, dbC8) ∧
    clock_out (run dbC8 [Req.clockIn 1 5 100 "office" none, Req.clockOut 1 5 200 none])
        1 5 210 none =
      (error_response (.msg "Already clocked out today") 400,
        run dbC8 [Req.clockIn 1 5 100 "office" none, Req.clockOut 1 5 200 none]) := by
  refine ⟨?_, ?_, ?_, ?_⟩
  · exact clock_state_machine_consistent.1 dbC8 _ (by decide) (by decide)
  · exact clock_state_machine_consistent.2.1 _ 1 5 110 "office" none ⟨10, 1, none⟩
      { id := 1, employeeId := 10, date := 5, clockIn := some 100, clockOut := none,
        status := "present", workFrom := "office", notes := none }
      (by decide) (by decide) (by decide)
  · exact clock_state_machine_consistent.2.2.1 dbC8 1 5 110 none ⟨10, 1, none⟩
      (by decide) (Or.inl (by decide))
  · exact clock_state_machine_consistent.2.2.2 _ 1 5 210 none ⟨10, 1, none⟩
      { id := 1, employeeId := 10, date := 5, clockIn := some 100, clockOut := some 200,
        status := "present", workFrom := "office", notes := none }
      (by decide) (by decide) (by decide) (by decide)

theorem employee_scope_check_spec (db : DB) (cu : UserRec) (eid : Nat) (emp : EmployeeRec)
    (msg : String) (hadmin : cu.role ≠ Role.admin) (hhr : cu.role ≠ Role.hr)
    (hemp : findEmployeeByUser db cu.id = some emp) (hne : eid ≠ emp.id) :
    (employee_scope_check db cu eid msg = .ok none ↔
      (cu.role = Role.manager ∧ ∃ t ∈ db.employees, t.id = eid ∧ t.managerId = some emp.id)) ∧
    (employee_scope_check db cu eid msg = .ok none ∨
      employee_scope_check db cu eid msg = .ok (some (error_response (.msg msg) 403))) := by
  have hadm : (cu.role == Role.admin || cu.role == Role.hr) = false := by
    cases hr : cu.role <;> simp_all
  have hne2 : (eid != emp.id) = true := by simp [hne]
  by_cases hm : cu.role = Role.manager
  · cases htm : db.employees.find? (fun t => t.id == eid && t.managerId == some emp.id) with
    | some t =>
      have hpred := List.find?_some htm
      have hmem := List.mem_of_find?_eq_some htm
      simp only [Bool.and_eq_true, beq_iff_eq] at hpred
      have hres : employee_scope_check db cu eid msg = .ok none := by
        simp [employee_scope_check, hadm, hemp, hm, htm]
      exact ⟨⟨fun _ => ⟨hm, t, hmem, hpred.1, hpred.2⟩, fun _ => hres⟩, Or.inl hres⟩
    | none =>
      have hres : employee_scope_check db cu eid msg =
          .ok (some (error_response (.msg msg) 403)) := by
        simp [employee_scope_check, hadm, hemp, hm, htm, hne2]
      refine ⟨⟨fun hc => ?_, fun hc => ?_⟩, Or.inr hres⟩
      · rw [hres] at hc
        simp at hc
      · obtain ⟨-, t, hmem, hid, hmid⟩ := hc
        rw [List.find?_eq_none] at htm
        have := htm t hmem
        simp [hid, hmid] at this
  · have hres : employee_scope_check db cu eid msg =
        .ok (some (error_response (.msg msg) 403)) := by
      have hmb : (cu.role == Role.manager) = false := by simp [hm]
      have hne3 : (emp.id != eid) = true := by simp [Ne.symm hne]
      simp [employee_scope_check, hadm, hemp, hmb, hne3]
    refine ⟨⟨fun hc => ?_, fun hc => ?_⟩, Or.inr hres⟩
    · rw [hres] at hc
      simp at hc
    · exact absurd hc.1 hm

/-- Claim C2: for the attendance history, attendance report and leave
balance endpoints, when the requester is neither admin nor HR, has an
employee row, and supplies an `employee_id` different from their own
employee id, the permission gate admits the request exactly when the
requester has the manager role and the target employee row lists the
requester as manager; in every other case the gate returns the 403
response. -/
theorem employee_scope_rbac_gate (db : DB) (cu : UserRec) (eid : Nat) (emp : EmployeeRec)
    (hadmin : cu.role ≠ Role.admin) (hhr : cu.role ≠ Role.hr)
    (hemp : findEmployeeByUser db cu.id = some emp) (hne : eid ≠ emp.id) :
    ((get_attendance_history_permission db cu eid = .ok none ↔
        (cu.role = Role.manager ∧ ∃ t ∈ db.employees, t.id = eid ∧ t.managerId = some emp.id)) ∧
      (get_attendance_history_permission db cu eid = .ok none ∨
        get_attendance_history_permission db cu eid = .ok (some (error_response
          (.msg "You don\x27t have permission to view this employee\x27s attendance") 403)))) ∧
    ((get_attendance_report_permission db cu eid = .ok none ↔
        (cu.role = Role.manager ∧ ∃ t ∈ db.employees, t.id = eid ∧ t.managerId = some emp.id)) ∧
      (get_attendance_report_permission db cu eid = .ok none ∨
        get_attendance_report_permission db cu eid = .ok (some (error_response
          (.msg "You don\x27t have permission to view this employee\x27s attendance") 403)))) ∧
    ((get_leave_balance_permission db cu eid = .ok none ↔
        (cu.role = Role.manager ∧ ∃ t ∈ db.employees, t.id = eid ∧ t.managerId = some emp.id)) ∧
      (get_leave_balance_permission db cu eid = .ok none ∨
        get_leave_balance_permission db cu eid = .ok (some (error_response
          (.msg "You don\x27t have permission to view this employee\x27s leave balance") 403)))) :=
  ⟨employee_scope_check_spec db cu eid emp _ hadmin hhr hemp hne,
   employee_scope_check_spec db cu eid emp _ hadmin hhr hemp hne,
   employee_scope_check_spec db cu eid emp _ hadmin hhr hemp hne⟩

theorem employee_scope_rbac_gate_witness :
    ((get_attendance_history_permission dbC2 cuC2 11 = .ok none ↔
        (cuC2.role = Role.manager ∧
          ∃ t ∈ dbC2.employees, t.id = 11 ∧ t.managerId = some (10 : Nat))) ∧
      (get_attendance_history_permission dbC2 cuC2 11 = .ok none ∨
        get_attendance_history_permission dbC2 cuC2 11 = .ok (some (error_response
          (.msg "You don\x27t have permission to view this employee\x27s attendance") 403)))) ∧
    ((get_attendance_report_permission dbC2 cuC2 11 = .ok none ↔
        (cuC2.role = Role.manager ∧
          ∃ t ∈ dbC2.employees, t.id = 11 ∧ t.managerId = some (10 : Nat))) ∧
      (get_attendance_report_permission dbC2 cuC2 11 = .ok none ∨
        get_attendance_report_permission dbC2 cuC2 11 = .ok (some (error_response
          (.msg "You don\x27t have permission to view this employee\x27s attendance") 403)))) ∧
    ((get_leave_balance_permission dbC2 cuC2 11 = .ok none ↔
        (cuC2.role = Role.manager ∧
          ∃ t ∈ dbC2.employees, t.id = 11 ∧ t.managerId = some (10 : Nat))) ∧
      (get_leave_balance_permission dbC2 cuC2 11 = .ok none ∨
        get_leave_balance_permission dbC2 cuC2 11 = .ok (some (error_response
          (.msg "You don\x27t have permission to view this employee\x27s leave balance") 403)))) :=
  employee_scope_rbac_gate dbC2 cuC2 11 ⟨10, 1, none⟩
    (by decide) (by decide) (by decide) (by decide)

/-- Claim C3: when schema validation of the request body fails, the
login, manual attendance record, and leave request creation endpoints
return status 400 with `success = false` and the per-field message
dictionary produced by validation as the error payload. -/
theorem schema_validation_failure_returns_400 :
    (∀ (db : DB) (errs : FieldErrors) (now : Nat),
      login db (.error errs) now =
        ({ success := false, error := some (.fieldErrors errs), status := 400 }, db)) ∧
    (∀ (db : DB) (uid : Nat) (errs : FieldErrors),
      admin_or_hr_required db uid = none →
      record_attendance_endpoint db uid (.error errs) =
        ({ success := false, error := some (.fieldErrors errs), status := 400 }, db)) ∧
    (∀ (db : DB) (uid today : Nat) (errs : FieldErrors),
      create_leave_request db uid today (.error errs) =
        .ok ({ success := false, error := some (.fieldErrors errs), status := 400 }, db)) := by
  refine ⟨?_, ?_, ?_⟩
  · intro db errs now
    rfl
  · intro db uid errs hdec
    simp [record_attendance_endpoint, hdec, record_attendance, error_response]
  · intro db uid today errs
    rfl

theorem schema_validation_failure_returns_400_witness :
    login dbC3 (.error [("email", "Not a valid email address.")]) 7 =
      ({ success := false,
         error := some (.fieldErrors [("email", "Not a valid email address.")]),
         status := 400 }, dbC3) ∧
    record_attendance_endpoint dbC3 1 (.error [("date", "Missing data for required field.")]) =
      ({ success := false,
         error := some (.fieldErrors [("date", "Missing data for required field.")]),
         status := 400 }, dbC3) ∧
    create_leave_request dbC3 1 5 (.error [("leave_type", "Missing data for required field.")]) =
      .ok ({ success := false,
             error := some (.fieldErrors [("leave_type", "Missing data for required field.")]),
             status := 400 }, dbC3) :=
  ⟨schema_validation_failure_returns_400.1 dbC3 _ 7,
   schema_validation_failure_returns_400.2.1 dbC3 1 _ (by decide),
   schema_validation_failure_returns_400.2.2 dbC3 1 5 _⟩

/-- Claim C4 counterexample: the `team_member_or_admin_required`
decorator intercepts a request by an authenticated manager who has no
employee row with status 404 ("Manager profile not found"), which is
neither 403 nor 401 — refuting "never any other status code". -/
theorem team_member_decorator_404_counterexample :
    team_member_or_admin_required dbC4 1 (some 2) =
      some { success := false, error := some (.msg "Manager profile not found"), status := 404 } ∧
    (404 : Nat) ≠ 403 ∧ (404 : Nat) ≠ 401 := by
  refine ⟨?_, by decide, by decide⟩
  rfl

/-- Claim C4 (amended): login failures (wrong email/password, disabled
account) return 401 and `admin_or_hr_required` interceptions return
403, but a `team_member_or_admin_required` interception returns either
403 or — exactly when the requester has no employee row — 404. -/
theorem auth_failures_statuses (db : DB) :
    (∀ (uid : Nat) (r : Response), admin_or_hr_required db uid = some r → r.status = 403) ∧
    (∀ (data : LoginData) (now : Nat) (r : Response) (db2 : DB),
      login db (.ok data) now = (r, db2) → r.success = false → r.status = 401) ∧
    (∀ (uid : Nat) (eid : Option Nat) (r : Response),
      team_member_or_admin_required db uid eid = some r →
      (r.status = 403 ∨ (r.status = 404 ∧ findEmployeeByUser db uid = none))) := by
  refine ⟨?_, ?_, ?_⟩
  · intro uid r h
    unfold admin_or_hr_required at h
    repeat' split at h
    all_goals first
      | exact Option.noConfusion h
      | (cases h; rfl)
  · intro data now r db2 h hsucc
    simp only [login] at h
    repeat' split at h
    all_goals (injection h with h1 h2; rw [← h1]) <;> first
      | rfl
      | (rw [← h1] at hsucc; simp [success_response] at hsucc)
  · intro uid eid r h
    simp only [team_member_or_admin_required] at h
    repeat' split at h
    all_goals first
      | exact Option.noConfusion h
      | (cases h; exact Or.inl rfl)
      | (rename_i hemp2; cases h; exact Or.inr ⟨rfl, hemp2⟩)

theorem auth_failures_statuses_witness :
    ((error_response (.msg "Admin or HR role required") 403).status = 403) ∧
    ((error_response (.msg "Invalid email or password") 401).status = 401) ∧
    ((error_response (.msg "Manager profile not found") 404).status = 403 ∨
      ((error_response (.msg "Manager profile not found") 404).status = 404 ∧
        findEmployeeByUser dbC4 1 = none)) := by
  refine ⟨?_, ?_, ?_⟩
  · exact (auth_failures_statuses dbC4).1 7 _ (by decide)
  · exact (auth_failures_statuses dbC4).2.1 ⟨"nobody@x.com", "pw"⟩ 3 _ dbC4 rfl (by decide)
  · exact (auth_failures_statuses dbC4).2.2 1 (some 2) _ (by decide)

/-- Claim C5: the endpoints addressing a resource by id (attendance
update/delete by `attendance_id`; leave get/update/cancel/action by
`leave_id`) return 404 and leave the state unchanged when no resource
with that id exists (for the decorated attendance endpoints, once the
admin/HR decorator has admitted the request). -/
theorem missing_resource_404_no_change :
    (∀ (db : DB) (uid aid : Nat) (body : Except FieldErrors AttendanceUpdateData),
      admin_or_hr_required db uid = none → getAttendance db aid = none →
      update_attendance_endpoint db uid aid body =
        (error_response (.msg "Attendance record not found") 404, db)) ∧
    (∀ (db : DB) (uid aid : Nat),
      admin_or_hr_required db uid = none → getAttendance db aid = none →
      delete_attendance_endpoint db uid aid =
        (error_response (.msg "Attendance record not found") 404, db)) ∧
    (∀ (db : DB) (uid lid : Nat), getLeave db lid = none →
      get_leave_request db uid lid =
        .ok (error_response (.msg "Leave request not found") 404, db)) ∧
    (∀ (db : DB) (uid lid today : Nat) (body : Except FieldErrors LeaveUpdateData),
      getLeave db lid = none →
      update_leave_request db uid lid today body =
        (error_response (.msg "Leave request not found") 404, db)) ∧
    (∀ (db : DB) (uid lid today : Nat), getLeave db lid = none →
      cancel_leave_request db uid lid today =
        (error_response (.msg "Leave request not found") 404, db)) ∧
    (∀ (db : DB) (uid lid now : Nat) (body : Except FieldErrors LeaveActionData),
      getLeave db lid = none →
      leave_action db uid lid now body =
        .ok (error_response (.msg "Leave request not found") 404, db)) := by
  refine ⟨?_, ?_, ?_, ?_, ?_, ?_⟩
  · intro db uid aid body hdec hid
    simp [update_attendance_endpoint, hdec, update_attendance, hid]
  · intro db uid aid hdec hid
    simp [delete_attendance_endpoint, hdec, delete_attendance, hid]
  · intro db uid lid hid
    simp [get_leave_request, hid]
  · intro db uid lid today body hid
    simp [update_leave_request, hid]
  · intro db uid lid today hid
    simp [cancel_leave_request, hid]
  · intro db uid lid now body hid
    simp [leave_action, hid]

theorem missing_resource_404_no_change_witness :
    update_attendance_endpoint dbC3 1 9 (.ok ⟨none, none, none, none, none⟩) =
      (error_response (.msg "Attendance record not found") 404, dbC3) ∧
    delete_attendance_endpoint dbC3 1 9 =
      (error_response (.msg "Attendance record not found") 404, dbC3) ∧
    get_leave_request dbC3 1 9 =
      .ok (error_response (.msg "Leave request not found") 404, dbC3) ∧
    update_leave_request dbC3 1 9 5 (.ok ⟨none, none, none, none, none⟩) =
      (error_response (.msg "Leave request not found") 404, dbC3) ∧
    cancel_leave_request dbC3 1 9 5 =
      (error_response (.msg "Leave request not found") 404, dbC3) ∧
    leave_action dbC3 1 9 5 (.ok ⟨"approve", none⟩) =
      .ok (error_response (.msg "Leave request not found") 404, dbC3) :=
  ⟨missing_resource_404_no_change.1 dbC3 1 9 _ (by decide) (by decide),
   missing_resource_404_no_change.2.1 dbC3 1 9 (by decide) (by decide),
   missing_resource_404_no_change.2.2.1 dbC3 1 9 (by decide),
   missing_resource_404_no_change.2.2.2.1 dbC3 1 9 5 _ (by decide),
   missing_resource_404_no_change.2.2.2.2.1 dbC3 1 9 5 (by decide),
   missing_resource_404_no_change.2.2.2.2.2 dbC3 1 9 5 _ (by decide)⟩

/-- Claim C7: `create_app` registers exactly one URL prefix per resource
family — auth, employees, attendance, leave, projects, tasks, dashboard,
payroll, okr, client, reports, payment, advanced — each mounted at
`/api/<family>`. -/
theorem blueprint_prefixes_registered_once :
    blueprint_registrations.map Prod.fst =
      ["auth", "employees", "attendance", "leave", "projects", "tasks", "dashboard",
       "payroll", "okr", "client", "reports", "payment", "advanced"] ∧
    (blueprint_registrations.map Prod.fst).Nodup ∧
    blueprint_registrations.all (fun r => r.snd == "/api/" ++ r.fst) = true := by
  refine ⟨rfl, by decide, by decide⟩

theorem leaveOverlap_iff (ls le s e : Nat) (hl : ls ≤ le) (hn : s ≤ e) :
    (leaveOverlap ls le s e = true ↔ (ls ≤ e ∧ s ≤ le)) := by
  unfold leaveOverlap
  simp only [Bool.or_eq_true, Bool.and_eq_true, decide_eq_true_eq, ge_iff_le]
  omega

theorem create_leave_overlap_400 (db : DB) (uid today : Nat) (data : LeaveCreateData)
    (emp : EmployeeRec) (hemp : findEmployeeByUser db uid = some emp)
    (hdays : data.days.isSome = true)
    (hse : data.start_date ≤ data.end_date) (htoday : today ≤ data.start_date)
    (hwf : ∀ l ∈ db.leaves, l.startDate ≤ l.endDate) :
    (create_leave_request db uid today (.ok data) =
        .ok (error_response (.msg "You already have a leave request for this period") 400, db) ↔
      ∃ l ∈ db.leaves, l.employeeId = emp.id ∧ l.status ≠ LeaveStatus.rejected ∧
        l.status ≠ LeaveStatus.cancelled ∧ l.startDate ≤ data.end_date ∧
        data.start_date ≤ l.endDate) := by
  obtain ⟨d0, hd0⟩ := Option.isSome_iff_exists.mp hdays
  have h1 : ¬ (data.start_date > data.end_date) := by omega
  have h2 : ¬ (data.start_date < today) := by omega
  cases hov : db.leaves.find? (fun l =>
      l.employeeId == emp.id && l.status != LeaveStatus.rejected &&
      l.status != LeaveStatus.cancelled &&
      leaveOverlap l.startDate l.endDate data.start_date data.end_date) with
  | some l =>
    have hres : create_leave_request db uid today (.ok data) =
        .ok (error_response (.msg "You already have a leave request for this period") 400, db) := by
      simp [create_leave_request, hemp, hd0, h1, h2, hov]
    have hpred := List.find?_some hov
    have hmem := List.mem_of_find?_eq_some hov
    simp only [Bool.and_eq_true, beq_iff_eq, bne_iff_ne] at hpred
    obtain ⟨⟨⟨hid, hrj⟩, hcl⟩, hovl⟩ := hpred
    have hiff := (leaveOverlap_iff _ _ _ _ (hwf l hmem) hse).mp hovl
    exact ⟨fun _ => ⟨l, hmem, hid, hrj, hcl, hiff.1, hiff.2⟩, fun _ => hres⟩
  | none =>
    refine ⟨fun hc => ?_, fun hex => ?_⟩
    · simp [create_leave_request, hemp, hd0, h1, h2, hov, success_response, error_response] at hc
    · obtain ⟨l, hmem, hid, hrj, hcl, ho1, ho2⟩ := hex
      rw [List.find?_eq_none] at hov
      have hnp := hov l hmem
      have hovl : leaveOverlap l.startDate l.endDate data.start_date data.end_date = true :=
        (leaveOverlap_iff _ _ _ _ (hwf l hmem) hse).mpr ⟨ho1, ho2⟩
      exact absurd (by simp [hid, hrj, hcl, hovl]) hnp

/-- Claim C9: the three-disjunct interval filter used by leave creation
is equivalent, for well-formed intervals, to the standard overlap
predicate `existing.start <= new.end and existing.end >= new.start`;
and leave creation returns 400 "You already have a leave request for
this period" exactly when the employee has a non-rejected,
non-cancelled leave request whose interval intersects the requested
one. -/
theorem leave_overlap_filter_equiv :
    (∀ (ls le s e : Nat), ls ≤ le → s ≤ e →
      (leaveOverlap ls le s e = true ↔ (ls ≤ e ∧ s ≤ le))) ∧
    (∀ (db : DB) (uid today : Nat) (data : LeaveCreateData) (emp : EmployeeRec),
      findEmployeeByUser db uid = some emp → data.days.isSome = true →
      data.start_date ≤ data.end_date → today ≤ data.start_date →
      (∀ l ∈ db.leaves, l.startDate ≤ l.endDate) →
      (create_leave_request db uid today (.ok data) =
          .ok (error_response (.msg "You already have a leave request for this period") 400, db) ↔
        ∃ l ∈ db.leaves, l.employeeId = emp.id ∧ l.status ≠ LeaveStatus.rejected ∧
          l.status ≠ LeaveStatus.cancelled ∧ l.startDate ≤ data.end_date ∧
          data.start_date ≤ l.endDate)) :=
  ⟨leaveOverlap_iff,
   fun db uid today data emp hemp hdays hse htoday hwf =>
     create_leave_overlap_400 db uid today data emp hemp hdays hse htoday hwf⟩

theorem leave_overlap_filter_equiv_witness :
    (leaveOverlap 3 7 6 8 = true ↔ ((3 : Nat) ≤ 8 ∧ (6 : Nat) ≤ 7)) ∧
    (create_leave_request dbC9 1 5 (.ok dataC9) =
        .ok (error_response (.msg "You already have a leave request for this period") 400, dbC9) ↔
      ∃ l ∈ dbC9.leaves, l.employeeId = (10 : Nat) ∧ l.status ≠ LeaveStatus.rejected ∧
        l.status ≠ LeaveStatus.cancelled ∧ l.startDate ≤ dataC9.end_date ∧
        dataC9.start_date ≤ l.endDate) :=
  ⟨leave_overlap_filter_equiv.1 3 7 6 8 (by decide) (by decide),
   leave_overlap_filter_equiv.2 dbC9 1 5 dataC9 ⟨10, 1, none⟩ (by decide) (by decide)
     (by decide) (by decide) (by decide)⟩

/-- Claim C10: `paginate` clamps its parameters to `page' = max 1 page`
and `per_page' = min (max 1 per_page) 100`, reports
`pages = ceiling (total / per_page')` (characterised by the two bounds
below), `has_next = (page' < pages)`, `has_prev = (page' > 1)`, and
returns at most `per_page'` items starting at offset
`(page' - 1) * per_page'`. -/
theorem paginate_clamps_and_reports {α : Type} (l : List α) (page per_page : Int) :
    (paginate l page per_page 100).page = max 1 page ∧
    (paginate l page per_page 100).per_page = min (max 1 per_page) 100 ∧
    (1 : Int) ≤ (paginate l page per_page 100).per_page ∧
    (paginate l page per_page 100).per_page ≤ 100 ∧
    (paginate l page per_page 100).total = l.length ∧
    l.length ≤ (paginate l page per_page 100).pages *
      (paginate l page per_page 100).per_page.toNat ∧
    (paginate l page per_page 100).pages * (paginate l page per_page 100).per_page.toNat <
      l.length + (paginate l page per_page 100).per_page.toNat ∧
    (paginate l page per_page 100).has_next =
      decide (((paginate l page per_page 100).page : Int) <
        ((paginate l page per_page 100).pages : Int)) ∧
    (paginate l page per_page 100).has_prev =
      decide ((1 : Int) < (paginate l page per_page 100).page) ∧
    (paginate l page per_page 100).items =
      (l.drop (((paginate l page per_page 100).page - 1) *
        (paginate l page per_page 100).per_page).toNat).take
        (paginate l page per_page 100).per_page.toNat ∧
    (paginate l page per_page 100).items.length ≤
      (paginate l page per_page 100).per_page.toNat := by
  set P := paginate l page per_page 100 with hP
  have hper : (1 : Int) ≤ min (max 1 per_page) 100 := by
    rcases le_total per_page 100 with h | h
    · rw [min_eq_left (by simp [h] : max 1 per_page ≤ 100)]
      exact le_max_left 1 per_page
    · rw [min_eq_right (le_max_of_le_right h)]
      omega
  have hpos : (0 : Int) < min (max 1 per_page) 100 := by omega
  have hP2 : P.per_page = min (max 1 per_page) 100 := rfl
  have hppn : 1 ≤ ((min (max 1 per_page) 100)).toNat := by omega
  have hpages : P.pages = (l.length + (min (max 1 per_page) 100).toNat - 1) /
      (min (max 1 per_page) 100).toNat := by
    show (if _ > 0 then _ else 0) = _
    rw [if_pos hpos]
  refine ⟨rfl, rfl, hper, by rw [hP2]; exact min_le_right _ _, rfl, ?_, ?_, rfl, rfl, rfl, ?_⟩
  · rw [hpages, hP2]
    set pp := (min (max 1 per_page) 100).toNat with hpp
    rcases Nat.eq_zero_or_pos l.length with hL | hL
    · simp [hL]
    · have hrw : l.length + pp - 1 = (l.length - 1) + pp := by omega
      rw [hrw, Nat.add_div_right _ (by omega)]
      have hlt : (l.length - 1) / pp < (l.length - 1) / pp + 1 := Nat.lt_succ_self _
      have := (Nat.div_lt_iff_lt_mul (by omega : 0 < pp)).mp hlt
      omega
  · rw [hpages, hP2]
    set pp := (min (max 1 per_page) 100).toNat with hpp
    have := Nat.div_mul_le_self (l.length + pp - 1) pp
    omega
  · exact List.length_take_le _ _

end HRMS
